import Mathlib

/-!
Verification of the acquisition/buffering core of `Gui_Serial_Port.py`
(a PyQt serial sensor-data plotter).

Shallow embedding of:
* the line decoder inside `SerialThread.run` (strip, emptiness check,
  Python `float()` parse);
* the worker thread `SerialThread.run` / `SerialThread.stop` as an event
  trace (open, read loop, close, exit);
* the sink/session state of `MainWindow` (`data`, `plot_data`,
  `handle_new_data`, `update_plot`);
* the GUI control operations `start_serial` and `save_data`.
-/

namespace GuiSerialPort

/-! ## Line decoder

`SerialThread.run` does
`line = self.ser.readline().decode("utf-8").strip()`, skips falsy (empty)
lines, and otherwise attempts `float(line)`, emitting the value on success
and printing "Invalid data received" on `ValueError`.

We model text as `List Char` (ASCII subset of the Python semantics).
-/

/-- Python `str.strip()` default whitespace set (ASCII part):
space, tab, newline, carriage return, vertical tab, form feed. -/
def isPySpace (c : Char) : Bool :=
  c = ' ' || c = '\t' || c = '\n' || c = '\x0d' || c = '\x0b' || c = '\x0c'

/-- Python `str.strip()`: drop leading and trailing whitespace. -/
def pyStrip (l : List Char) : List Char :=
  ((l.dropWhile isPySpace).reverse.dropWhile isPySpace).reverse

/-- ASCII decimal digit test. -/
def isDig (c : Char) : Bool :=
  '0' ≤ c && c ≤ '9'

/-- After one digit has been consumed, consume the rest of a Python
`digitpart`: further digits, with single underscores allowed only between
digits. Returns the unconsumed remainder. -/
def eatDigitsAux : List Char → List Char
  | [] => []
  | c :: rest =>
      if isDig c then eatDigitsAux rest
      else if c = '_' then
        match rest with
        | d :: rest2 => if isDig d then eatDigitsAux rest2 else c :: rest
        | [] => c :: rest
      else c :: rest

/-- Consume a Python `digitpart` (`digit (["_"] digit)*`); `none` if the
input does not start with a digit. -/
def eatDigitPart : List Char → Option (List Char)
  | c :: rest => if isDig c then some (eatDigitsAux rest) else none
  | [] => none

/-- Consume an optional sign character. -/
def eatSign : List Char → List Char
  | c :: rest => if c = '+' || c = '-' then rest else c :: rest
  | [] => []

/-- Consume the mantissa of a float: `digitpart ["." [digitpart]]` or
`"." digitpart`. -/
def eatMantissa (l : List Char) : Option (List Char) :=
  match eatDigitPart l with
  | some rest =>
      some (match rest with
            | '.' :: r => (eatDigitPart r).getD r
            | _ => rest)
  | none =>
      match l with
      | '.' :: r => eatDigitPart r
      | _ => none

/-- Consume an optional exponent: `("e" | "E") [sign] digitpart`. -/
def eatExp : List Char → Option (List Char)
  | c :: r => if c = 'e' || c = 'E' then eatDigitPart (eatSign r) else some (c :: r)
  | [] => some []

/-- Case-insensitive match of the whole remaining input against a keyword
(used for Python float()'s `inf`, `infinity`, `nan`). -/
def kwMatches (l : List Char) (kw : String) : Bool :=
  l.map Char.toLower = kw.toList

/-- Acceptance of Python `float(s)` on an already-stripped string `s`
(ASCII): optional sign, then either a case-insensitive `inf`, `infinity`
or `nan`, or a mantissa with optional exponent, consuming the whole
input. -/
def isPyFloat (l : List Char) : Bool :=
  let l1 := eatSign l
  if kwMatches l1 "inf" || kwMatches l1 "infinity" || kwMatches l1 "nan" then
    true
  else
    match eatMantissa l1 with
    | some r =>
        match eatExp r with
        | some [] => true
        | _ => false
    | none => false

/-- Outcome of the decoder on one raw line: a sample (carrying the
stripped token that parsed as a float), a rejection report
("Invalid data received"), or silently ignored (empty after strip). -/
inductive DecodeResult where
  | sample (tok : List Char)
  | rejected (tok : List Char)
  | ignored
deriving Repr, DecidableEq

/-- The decode step of `SerialThread.run` (lines 29-35): strip the raw
line; if nonempty, try `float(line)` — emitting the sample on success and
reporting invalid data on failure; an empty stripped line does nothing. -/
def decodeLine (raw : List Char) : DecodeResult :=
  let line := pyStrip raw
  if line ≠ [] then
    if isPyFloat line then .sample line else .rejected line
  else
    .ignored

/-! ## Sample sink / session

`MainWindow` keeps `self.data` (the collected series) and
`self.plot_data` (the plotted series). The worker's `data_received`
signal is delivered on the GUI thread as `handle_new_data`, which appends
the value to both lists (lines 116-118). The 100 ms timer drives
`update_plot`, which passes the whole of `plot_data` to
`self.plot_curve.setData` and does not modify any state (lines 120-121).
Both run on the GUI event loop, so they interleave atomically.
`α` is the type of decoded sample values. -/
structure SessionState (α : Type) where
  data : List α
  plot_data : List α
deriving Repr, DecidableEq

/-- `MainWindow.__init__`: `self.data = []`, `self.plot_data = []`. -/
def initialSession (α : Type) : SessionState α := ⟨[], []⟩

/-- `MainWindow.handle_new_data` (lines 116-118): append the value to
both the collected series and the plotted series. -/
def handle_new_data {α : Type} (v : α) (s : SessionState α) : SessionState α :=
  ⟨s.data ++ [v], s.plot_data ++ [v]⟩

/-- `MainWindow.update_plot` (lines 120-121): the consumer's periodic
sampling step. Returns the series handed to `setData` (the whole of
`plot_data`) together with the resulting state, which it leaves
unchanged. -/
def update_plot {α : Type} (s : SessionState α) : List α × SessionState α :=
  (s.plot_data, s)

/-- Deliver a sequence of published samples in arrival order. -/
def publish_all {α : Type} (vs : List α) (s : SessionState α) : SessionState α :=
  vs.foldl (fun st v => handle_new_data v st) s

/-- One interleaving step of the two GUI-thread slots: a publish
(`handle_new_data`) or a consumer sampling step (`update_plot`). -/
inductive SessionOp (α : Type) where
  | publish (v : α)
  | drain
deriving Repr, DecidableEq

/-- Apply one session operation. -/
def session_step {α : Type} (op : SessionOp α) (s : SessionState α) : SessionState α :=
  match op with
  | .publish v => handle_new_data v s
  | .drain => (update_plot s).2

/-- Run a sequence of interleaved session operations. -/
def session_run {α : Type} (ops : List (SessionOp α)) (s : SessionState α) : SessionState α :=
  ops.foldl (fun st op => session_step op st) s

/-- The values published by a sequence of operations, in order. -/
def published_values {α : Type} : List (SessionOp α) → List α
  | [] => []
  | .publish v :: rest => v :: published_values rest
  | .drain :: rest => published_values rest

/-! ## Acquisition worker

`SerialThread.run` (lines 19-39): set `running`, open the serial port
(reporting and returning on failure), then loop while `running`: read a
line (a timeout yields the empty line), decode it, emit accepted samples,
print a report for invalid lines, and print a report for any read-layer
exception; after the loop, close the port if it was opened.
`SerialThread.stop` (lines 41-43) clears `running` and joins the thread
(`self.wait()`).

We model one run as the trace of its observable events. The stop signal
is modelled by the (arbitrary, finite) list of read results the loop
processes before it observes `running == False`. -/

/-- One result of the timeout-bounded `readline` inside the loop: a text
line (a read timeout yields the empty line, which the decoder ignores),
or a read-layer exception. -/
inductive ReadEvent where
  | line (raw : List Char)
  | fault
deriving Repr, DecidableEq

/-- Observable events of one worker run. -/
inductive TraceEvent where
  | opened
  | openFailed
  | published (tok : List Char)
  | rejectedReport (tok : List Char)
  | readFaultReport
  | closed
  | exited
deriving Repr, DecidableEq

/-- Events of one loop iteration (lines 28-37): a successful parse emits
the sample; a `ValueError` prints "Invalid data received"; an empty
stripped line does nothing; any other exception prints
"Serial read error" — in every case the loop continues. -/
def iterEvents (e : ReadEvent) : List TraceEvent :=
  match e with
  | .line raw =>
      match decodeLine raw with
      | .sample tok => [.published tok]
      | .rejected tok => [.rejectedReport tok]
      | .ignored => []
  | .fault => [.readFaultReport]

/-- The read loop (lines 27-37): processes every read result until the
stop flag is observed (end of the list); no event ends the loop early. -/
def run_loop (events : List ReadEvent) : List TraceEvent :=
  match events with
  | [] => []
  | e :: rest => iterEvents e ++ run_loop rest

/-- The whole of `SerialThread.run` (lines 19-39): attempt to open the
port; on failure print the error and return; otherwise run the read loop
and, after it exits, close the still-open port before the thread
terminates. -/
def worker_run (openOk : Bool) (events : List ReadEvent) : List TraceEvent :=
  if openOk then
    .opened :: (run_loop events ++ [.closed, .exited])
  else
    [.openFailed, .exited]

/-- `SerialThread.stop` (lines 41-43): clear `running` (bounding the list
of loop iterations) and block in `self.wait()` until `run` has returned;
the trace visible at the moment `stop` returns is the completed run
trace. -/
def stop_result (openOk : Bool) (events : List ReadEvent) : List TraceEvent :=
  worker_run openOk events

/-! ## GUI control operations -/

/-- User-visible side effects of the GUI control slots. -/
inductive GuiEffect where
  | reportNoDevice
  | spawnWorker (port : String)
  | startTimer
deriving Repr, DecidableEq

/-- The `MainWindow` state the control slots touch: the chosen save
directory, the active worker (the port it was spawned on, `None` when
idle), and the two sample series. -/
structure MainState (α : Type) where
  save_directory : Option String
  serial_thread : Option String
  session : SessionState α
deriving Repr, DecidableEq

/-- `MainWindow.start_serial` (lines 96-108): only when no worker is
active, enumerate the serial ports; with none present show the critical
"No serial ports found!" box and return; otherwise spawn a worker on the
first port and start the 100 ms plot timer. -/
def start_serial {α : Type} (ports : List String) (s : MainState α) :
    MainState α × List GuiEffect :=
  match s.serial_thread with
  | some _ => (s, [])
  | none =>
      match ports with
      | [] => (s, [.reportNoDevice])
      | p :: _ => ({ s with serial_thread := some p }, [.spawnWorker p, .startTimer])

/-! ## Persistence (`MainWindow.save_data`, lines 129-140) -/

/-- User-visible side effects of `save_data`. -/
inductive SaveEffect where
  | warnNoDirectory
  | wroteFile (path : String) (fileLines : List String)
  | reportSuccess (path : String)
  | reportSaveError
deriving Repr, DecidableEq

/-- The fixed output filename used by `save_data`. -/
def sensor_file_name : String := "sensor_data.txt"

/-- Whether the first string starts with the second. -/
def strStarts (s pre : String) : Bool :=
  pre.toList.isPrefixOf s.toList

/-- Whether the first string ends with the second. -/
def strEnds (s suf : String) : Bool :=
  suf.toList.reverse.isPrefixOf s.toList.reverse

/-- POSIX `os.path.join` for two components, as used on line 133. -/
def os_path_join (a b : String) : String :=
  if strStarts b "/" then b
  else if a = "" || strEnds a "/" then a ++ b
  else a ++ "/" ++ b

/-- The write loop of lines 136-137: `for value in self.data:
f.write(f"{value}\n")` — each iteration appends one formatted value as
one line of the file. -/
def write_loop {α : Type} (fmt : α → String) (values : List α)
    (fileLines : List String) : List String :=
  match values with
  | [] => fileLines
  | v :: rest => write_loop fmt rest (fileLines ++ [fmt v])

/-- `MainWindow.save_data` (lines 129-140): with no directory chosen,
show the warning box and return; otherwise write every collected value,
one per line, to `sensor_data.txt` in the chosen directory and report
success, or report the I/O error if the write raises. `fmt` is Python's
`f"{value}"` formatting of one sample value; `writeOk` says whether the
filesystem write succeeds. -/
def save_data {α : Type} (fmt : α → String) (writeOk : Bool) (s : MainState α) :
    MainState α × List SaveEffect :=
  match s.save_directory with
  | none => (s, [.warnNoDirectory])
  | some dir =>
      let path := os_path_join dir sensor_file_name
      if writeOk then
        (s, [.wroteFile path (write_loop fmt s.session.data []), .reportSuccess path])
      else
        (s, [.reportSaveError])

/-! ## Helper lemmas -/

theorem publish_all_eq {α : Type} (vs : List α) (s : SessionState α) :
    publish_all vs s = ⟨s.data ++ vs, s.plot_data ++ vs⟩ := by
  induction vs generalizing s with
  | nil => simp [publish_all]
  | cons v rest ih =>
      show publish_all rest (handle_new_data v s) = _
      rw [ih]
      simp [handle_new_data]

theorem session_run_eq {α : Type} (ops : List (SessionOp α)) (s : SessionState α) :
    session_run ops s =
      ⟨s.data ++ published_values ops, s.plot_data ++ published_values ops⟩ := by
  induction ops generalizing s with
  | nil => simp [session_run, published_values]
  | cons op rest ih =>
      show session_run rest (session_step op s) = _
      rw [ih]
      cases op <;> simp [session_step, handle_new_data, update_plot, published_values]

theorem run_loop_append (es1 es2 : List ReadEvent) :
    run_loop (es1 ++ es2) = run_loop es1 ++ run_loop es2 := by
  induction es1 with
  | nil => simp [run_loop]
  | cons e rest ih => simp [run_loop, ih]

theorem worker_run_closes (events : List ReadEvent) :
    worker_run true events =
      (TraceEvent.opened :: run_loop events) ++ [TraceEvent.closed, TraceEvent.exited] := by
  simp [worker_run]

theorem write_loop_eq {α : Type} (fmt : α → String) (vs : List α) (acc : List String) :
    write_loop fmt vs acc = acc ++ vs.map fmt := by
  induction vs generalizing acc with
  | nil => simp [write_loop]
  | cons v rest ih => simp [write_loop, ih]

/-! ## Claims -/

/-- C1 (counterexample): the claim says a second immediate drain returns
the empty batch, but `update_plot` never empties `plot_data`: after 1000
samples are published from the initial state and one sampling step is
performed, a second immediate sampling step still returns a non-empty
(1000-element) batch. -/
theorem C1_counterexample :
    (update_plot (update_plot (publish_all (List.range 1000) (initialSession ℕ))).2).1 ≠
      [] := by
  simp [publish_all_eq, initialSession, update_plot, List.range_eq_nil]

/-- C1 (amended): `update_plot`, the consumer's periodic sampling step,
reads the current plotted series without taking ownership of it or
replacing it with an empty batch: after any sequence of samples is
published from the initial state, one sampling step returns exactly those
samples in arrival order, leaves the state unchanged, and a second
immediate sampling step returns the same samples again rather than the
empty batch. -/
theorem C1_update_plot_reads_without_draining (α : Type) (vs : List α) :
    (update_plot (publish_all vs (initialSession α))).1 = vs ∧
    (update_plot (publish_all vs (initialSession α))).2 = publish_all vs (initialSession α) ∧
    (update_plot (update_plot (publish_all vs (initialSession α))).2).1 = vs := by
  simp [publish_all_eq, initialSession, update_plot]

/-- C2: `handle_new_data` appends each accepted sample exactly once to
both the collected series and the plotted series in a single update, so
after any interleaving of publishes and consumer sampling steps the two
series both equal the published values in arrival order, the collected
series before a step is a prefix of the collected series after it (drains
never reorder), and its length only grows. -/
theorem C2_publish_appends_to_both (α : Type) (ops : List (SessionOp α)) :
    (session_run ops (initialSession α)).data = published_values ops ∧
    (session_run ops (initialSession α)).plot_data = published_values ops ∧
    (∀ (v : α) (s : SessionState α),
      handle_new_data v s = ⟨s.data ++ [v], s.plot_data ++ [v]⟩) ∧
    (∀ (op : SessionOp α) (s : SessionState α), s.data <+: (session_step op s).data) ∧
    (∀ (op : SessionOp α) (s : SessionState α),
      s.data.length ≤ (session_step op s).data.length) := by
  refine ⟨?_, ?_, fun v s => rfl, ?_, ?_⟩
  · simp [session_run_eq, initialSession]
  · simp [session_run_eq, initialSession]
  · intro op s
    cases op with
    | publish v => exact ⟨[v], rfl⟩
    | drain => exact ⟨[], by simp [session_step, update_plot]⟩
  · intro op s
    cases op with
    | publish v => simp [session_step, handle_new_data]
    | drain => simp [session_step, update_plot]

/-- C3: a raw line yields a sample iff its stripped text is accepted by
Python's `float()`; a non-empty stripped line that is not accepted yields
a rejection report and no sample; a line that is empty after stripping
yields neither; together with the spec's four examples. -/
theorem C3_decoder_classification (raw : List Char) :
    ((∃ tok, decodeLine raw = .sample tok) ↔ isPyFloat (pyStrip raw) = true) ∧
    (decodeLine raw = .rejected (pyStrip raw) ↔
      (pyStrip raw ≠ [] ∧ isPyFloat (pyStrip raw) = false)) ∧
    (decodeLine raw = .ignored ↔ pyStrip raw = []) ∧
    decodeLine "23.5".toList = .sample "23.5".toList ∧
    decodeLine "  -1.0 ".toList = .sample "-1.0".toList ∧
    decodeLine "abc".toList = .rejected "abc".toList ∧
    decodeLine "".toList = .ignored := by
  refine ⟨?_, ?_, ?_, by decide, by decide, by decide, by decide⟩ <;>
  · unfold decodeLine
    by_cases h1 : pyStrip raw = []
    · simp [h1, show isPyFloat ([] : List Char) = false from by decide]
    · by_cases h2 : isPyFloat (pyStrip raw) <;> simp [h1, h2]

/-- C4: `stop` blocks in `wait()` until `run` has returned, so the trace
observable when `stop` returns always ends with the thread's exit event,
and whenever the device was opened, the close event immediately precedes
the exit event — the handle is released before the worker's thread of
control terminates, for every open outcome and every number of loop
iterations (including zero, i.e. `stop` right after `start`). -/
theorem C4_stop_joins_after_close (openOk : Bool) (events : List ReadEvent) :
    (stop_result openOk events).getLast? = some TraceEvent.exited ∧
    (TraceEvent.opened ∈ stop_result openOk events →
      ∃ pre, stop_result openOk events = pre ++ [TraceEvent.closed, TraceEvent.exited]) := by
  cases openOk with
  | false =>
      constructor
      · show ([TraceEvent.openFailed, TraceEvent.exited] : List TraceEvent).getLast? =
          some TraceEvent.exited
        decide
      · intro h
        simp [stop_result, worker_run] at h
  | true =>
      constructor
      · have h : stop_result true events =
            ((TraceEvent.opened :: run_loop events) ++ [TraceEvent.closed]) ++
              [TraceEvent.exited] := by
          simp [stop_result, worker_run_closes]
        rw [h, List.getLast?_concat]
      · intro _
        exact ⟨TraceEvent.opened :: run_loop events, worker_run_closes events⟩

/-- C4 (witness): at a concrete run (open succeeded, stop observed before
any read), the trace at `stop`'s return ends with close-then-exit. -/
theorem C4_stop_joins_after_close_witness :
    ∃ pre, stop_result true [] = pre ++ [TraceEvent.closed, TraceEvent.exited] :=
  (C4_stop_joins_after_close true []).2 (by decide)

/-- C5: a read fault is reported and the loop continues; a line-decode
rejection is reported and the loop continues; the loop never terminates
early (it processes every read result up to the stop signal); and no
path leaves an opened handle unclosed — a successful open is always
followed by a close before exit, and a failed open holds no handle. -/
theorem C5_errors_keep_loop_running (raw : List Char) (es1 es2 : List ReadEvent)
    (hne : pyStrip raw ≠ []) (hbad : isPyFloat (pyStrip raw) = false) :
    run_loop (ReadEvent.fault :: es2) = TraceEvent.readFaultReport :: run_loop es2 ∧
    run_loop (ReadEvent.line raw :: es2) =
      TraceEvent.rejectedReport (pyStrip raw) :: run_loop es2 ∧
    run_loop (es1 ++ es2) = run_loop es1 ++ run_loop es2 ∧
    (∃ pre, worker_run true es2 = pre ++ [TraceEvent.closed, TraceEvent.exited]) ∧
    worker_run false es2 = [TraceEvent.openFailed, TraceEvent.exited] := by
  refine ⟨by simp [run_loop, iterEvents], ?_, run_loop_append es1 es2,
    ⟨TraceEvent.opened :: run_loop es2, worker_run_closes es2⟩, rfl⟩
  have hdec : decodeLine raw = .rejected (pyStrip raw) := by
    unfold decodeLine
    simp [hne, hbad]
  simp [run_loop, iterEvents, hdec]

/-- C5 (witness): concrete instance with the rejected line `"abc"` and
empty event lists. -/
theorem C5_errors_keep_loop_running_witness :
    run_loop (ReadEvent.fault :: []) = TraceEvent.readFaultReport :: run_loop [] ∧
    run_loop (ReadEvent.line "abc".toList :: []) =
      TraceEvent.rejectedReport (pyStrip "abc".toList) :: run_loop [] ∧
    run_loop ([] ++ []) = run_loop [] ++ run_loop [] ∧
    (∃ pre, worker_run true [] = pre ++ [TraceEvent.closed, TraceEvent.exited]) ∧
    worker_run false [] = [TraceEvent.openFailed, TraceEvent.exited] :=
  C5_errors_keep_loop_running "abc".toList [] [] (by decide) (by decide)

/-- C6: `start_serial` with a worker already active is a no-op: the state
is unchanged and no worker is spawned, no timer started, no device
opened. -/
theorem C6_start_noop_when_running (α : Type) (ports : List String) (s : MainState α)
    (p : String) (h : s.serial_thread = some p) :
    start_serial ports s = (s, []) := by
  simp [start_serial, h]

/-- C6 (witness): concrete already-running state. -/
theorem C6_start_noop_when_running_witness :
    start_serial ["COM4"]
        ({ save_directory := none, serial_thread := some "COM3",
           session := ⟨[], []⟩ } : MainState ℕ) =
      ({ save_directory := none, serial_thread := some "COM3",
         session := ⟨[], []⟩ }, []) :=
  C6_start_noop_when_running ℕ ["COM4"] _ "COM3" rfl

/-- C7: `start_serial` in the idle state with an empty port list shows
the "No serial ports found!" report and changes nothing: no worker is
spawned, the session stays idle and the collected series is unchanged. -/
theorem C7_start_no_ports (α : Type) (s : MainState α) (h : s.serial_thread = none) :
    start_serial ([] : List String) s = (s, [GuiEffect.reportNoDevice]) := by
  simp [start_serial, h]

/-- C7 (witness): concrete idle state with collected data. -/
theorem C7_start_no_ports_witness :
    start_serial ([] : List String)
        ({ save_directory := none, serial_thread := none,
           session := ⟨[3, 1], [3, 1]⟩ } : MainState ℕ) =
      ({ save_directory := none, serial_thread := none,
         session := ⟨[3, 1], [3, 1]⟩ }, [GuiEffect.reportNoDevice]) :=
  C7_start_no_ports ℕ _ rfl

/-- C8: when the device open fails, the worker reports the failure and
its thread terminates directly: it performs no reads, publishes no
samples, reports no line rejections and never holds an open handle. -/
theorem C8_open_failure_never_reads (events : List ReadEvent) :
    worker_run false events = [TraceEvent.openFailed, TraceEvent.exited] ∧
    (∀ tok, TraceEvent.published tok ∉ worker_run false events) ∧
    (∀ tok, TraceEvent.rejectedReport tok ∉ worker_run false events) ∧
    TraceEvent.opened ∉ worker_run false events := by
  refine ⟨rfl, ?_, ?_, ?_⟩ <;> simp [worker_run]

/-- C9: with a chosen directory, `save_data` writes exactly one formatted
value per line, in collected order, to the fixed filename
`sensor_data.txt` joined to that directory, and reports success; if the
write raises, it reports the I/O error instead. The state is unchanged
either way. -/
theorem C9_save_one_value_per_line (α : Type) (fmt : α → String) (s : MainState α)
    (dir : String) (h : s.save_directory = some dir) :
    save_data fmt true s =
      (s, [SaveEffect.wroteFile (os_path_join dir sensor_file_name)
             (s.session.data.map fmt),
           SaveEffect.reportSuccess (os_path_join dir sensor_file_name)]) ∧
    save_data fmt false s = (s, [SaveEffect.reportSaveError]) := by
  constructor <;> simp [save_data, h, write_loop_eq]

/-- C9 (witness): concrete state with directory `/tmp` and two collected
values. -/
theorem C9_save_one_value_per_line_witness :
    save_data (fun n => toString n) true
        ({ save_directory := some "/tmp", serial_thread := none,
           session := ⟨[1, 2], [1, 2]⟩ } : MainState ℕ) =
      ({ save_directory := some "/tmp", serial_thread := none,
         session := ⟨[1, 2], [1, 2]⟩ },
       [SaveEffect.wroteFile "/tmp/sensor_data.txt" ["1", "2"],
        SaveEffect.reportSuccess "/tmp/sensor_data.txt"]) := by
  have h := (C9_save_one_value_per_line ℕ (fun n => toString n)
      ({ save_directory := some "/tmp", serial_thread := none,
         session := ⟨[1, 2], [1, 2]⟩ } : MainState ℕ) "/tmp" rfl).1
  have hp : os_path_join "/tmp" sensor_file_name = "/tmp/sensor_data.txt" := by decide
  have hm : ([1, 2] : List ℕ).map (fun n => toString n) = ["1", "2"] := by decide
  rw [hp] at h
  simpa [hm] using h

/-- C10: with no save directory chosen, `save_data` shows the warning
box and returns: the state (including the collected series) is unchanged
and no file is opened or written. -/
theorem C10_save_without_directory (α : Type) (fmt : α → String) (writeOk : Bool)
    (s : MainState α) (h : s.save_directory = none) :
    save_data fmt writeOk s = (s, [SaveEffect.warnNoDirectory]) ∧
    ∀ p ls, SaveEffect.wroteFile p ls ∉ (save_data fmt writeOk s).2 := by
  have heq : save_data fmt writeOk s = (s, [SaveEffect.warnNoDirectory]) := by
    simp [save_data, h]
  refine ⟨heq, ?_⟩
  intro p ls
  rw [heq]
  simp

/-- C10 (witness): concrete state with no directory chosen. -/
theorem C10_save_without_directory_witness :
    save_data (fun n => toString n) true
        ({ save_directory := none, serial_thread := none,
           session := ⟨[5], [5]⟩ } : MainState ℕ) =
      ({ save_directory := none, serial_thread := none,
         session := ⟨[5], [5]⟩ }, [SaveEffect.warnNoDirectory]) :=
  (C10_save_without_directory ℕ (fun n => toString n) true _ rfl).1

end GuiSerialPort
